import Mathlib

/-!
Shallow embedding of the decision layer of the GCS music streaming service
(`main.py`, `gcs_utils.py`): classifier cache, retry gateway, mood
post-processing, track selection with similarity fallback and recent-history
filtering, and the signed-URL cache.  Time is modelled as a rational number of
seconds (`time.time()`), external collaborators (the GPT backend, the URL
signer, the random number generator) are modelled as explicit parameters, and
the Python dicts are modelled as insertion-ordered association lists with
unique keys.
-/

namespace GCSMusic

/-- `MusicAnalysis` from `models.py`: the classifier result record.
`intensity` is a rational standing in for the Python float. -/
structure MusicAnalysis where
  primary_mood : String
  secondary_mood : Option String
  intensity : ℚ
  emotional_tags : List String
  reasoning : String
deriving DecidableEq, Repr

/-- A classifier-cache record: `{result: dict, timestamp: float}` (`main.py`). -/
structure GptEntry where
  result : MusicAnalysis
  timestamp : ℚ
deriving DecidableEq, Repr

/-- A URL-cache record: `{url: str, timestamp: float}` (`main.py`). -/
structure UrlEntry where
  url : String
  timestamp : ℚ
deriving DecidableEq, Repr

/-- Python dict with string keys, modelled as an insertion-ordered
association list with unique keys. -/
abbrev Dict (V : Type) := List (String × V)

/-- Dict lookup: first (unique) entry with the given key. -/
def dictFind {V : Type} (c : Dict V) (k : String) : Option V :=
  (c.find? (fun e => e.1 == k)).map Prod.snd

/-- Python `del c[k]`: remove the entry with key `k`. -/
def dictErase {V : Type} (c : Dict V) (k : String) : Dict V :=
  c.filter (fun e => !(e.1 == k))

/-- Python `c[k] = v`: overwrite in place when the key exists, else append. -/
def dictInsert {V : Type} (c : Dict V) (k : String) (v : V) : Dict V :=
  if c.any (fun e => e.1 == k) then
    c.map (fun e => if e.1 == k then (k, v) else e)
  else c ++ [(k, v)]

/-! ### Cache configuration constants (`main.py` lines 177-181) -/

def GPT_CACHE_MAX_SIZE : Nat := 100
def GPT_CACHE_EXPIRY_HOURS : ℚ := 24
def URL_CACHE_EXPIRY_MINUTES : ℚ := 50
def RECENT_TRACKS_SIZE : Nat := 10

abbrev GptCache := Dict GptEntry
abbrev UrlCache := Dict UrlEntry

/-- `get_prompt_hash` applies `hashlib.md5` (an external collaborator) to the
prompt; the spec notes the exact algorithm is not load-bearing, only that the
key derivation is deterministic.  Modelled as the identity key derivation. -/
def get_prompt_hash (prompt : String) : String := prompt

/-- `get_cached_gpt_response` (`main.py` 194-211): look up the prompt hash;
an entry older than 24 hours is deleted and treated as absent.  Returns the
result (if any) together with the possibly-updated cache. -/
def get_cached_gpt_response (now : ℚ) (cache : GptCache) (prompt : String) :
    Option MusicAnalysis × GptCache :=
  let prompt_hash := get_prompt_hash prompt
  match dictFind cache prompt_hash with
  | none => (none, cache)
  | some cached =>
    if (now - cached.timestamp) / 3600 > GPT_CACHE_EXPIRY_HOURS then
      (none, dictErase cache prompt_hash)
    else (some cached.result, cache)

/-- Python `min(keys, key=timestamp)`: the first entry (in iteration order)
with the strictly smallest timestamp. -/
def minTimestampKey (c : GptCache) : Option (String × GptEntry) :=
  match c with
  | [] => none
  | e :: rest =>
    some (rest.foldl (fun best x => if x.2.timestamp < best.2.timestamp then x else best) e)

/-- `cache_gpt_response` (`main.py` 214-229): when the cache already holds at
least `GPT_CACHE_MAX_SIZE` entries, first delete the oldest-created entry,
then insert the new record with the current timestamp. -/
def cache_gpt_response (now : ℚ) (cache : GptCache) (prompt : String)
    (result : MusicAnalysis) : GptCache :=
  let prompt_hash := get_prompt_hash prompt
  let cache1 :=
    if GPT_CACHE_MAX_SIZE ≤ cache.length then
      match minTimestampKey cache with
      | some oldest => dictErase cache oldest.1
      | none => cache
    else cache
  dictInsert cache1 prompt_hash ⟨result, now⟩

/-- The hard-coded default analysis returned when every GPT attempt fails
(`main.py` 338-344). -/
def default_analysis : MusicAnalysis :=
  ⟨"peaceful", none, 1/2, [], "GPT 분석 실패로 기본 무드 사용"⟩

/-- Outcome of one `analyze_scene_with_gpt` call: the returned analysis, the
cache afterwards, how many external classifier calls were made, and the
sequence of backoff sleeps (in seconds) that were performed. -/
structure GwOutcome where
  result : MusicAnalysis
  cache : GptCache
  externalCalls : Nat
  sleeps : List Nat
deriving DecidableEq, Repr

/-- The retry loop of `analyze_scene_with_gpt` (`main.py` 306-344): iterate
over the attempt indices; a successful attempt caches and returns its parsed
analysis; a failed attempt sleeps `(attempt+1)*2` seconds unless it was the
last one.  The external classifier (including JSON parsing) is the oracle
`backend : attempt index → Option MusicAnalysis`. -/
def retry_go (backend : Nat → Option MusicAnalysis) (now : ℚ) (prompt : String)
    (cache : GptCache) (retry_count : Nat) :
    List Nat → Nat → List Nat → GwOutcome
  | [], calls, sleeps => ⟨default_analysis, cache, calls, sleeps⟩
  | attempt :: rest, calls, sleeps =>
    match backend attempt with
    | some analysis =>
      ⟨analysis, cache_gpt_response now cache prompt analysis, calls + 1, sleeps⟩
    | none =>
      let sleeps1 :=
        if attempt < retry_count - 1 then sleeps ++ [(attempt + 1) * 2] else sleeps
      retry_go backend now prompt cache retry_count rest (calls + 1) sleeps1

/-- `analyze_scene_with_gpt` (`main.py` 259-344): serve from the cache when
possible, otherwise run the retry loop over attempts `0 .. retry_count-1`. -/
def analyze_scene_with_gpt (backend : Nat → Option MusicAnalysis) (now : ℚ)
    (prompt : String) (cache : GptCache) (retry_count : Nat) : GwOutcome :=
  match get_cached_gpt_response now cache prompt with
  | (some r, cache1) => ⟨r, cache1, 0, []⟩
  | (none, cache1) =>
    retry_go backend now prompt cache1 retry_count (List.range retry_count) 0 []

/-! ### Post-processing correction pass (`main.py` 347-376) -/

/-- Python `str.lower()`, modelled on the character list (ASCII lowering;
Korean characters are unaffected, exactly as in CPython for this alphabet). -/
def strToLower (s : String) : String := ⟨s.data.map Char.toLower⟩

/-- Contiguous-sublist test on character lists. -/
def charsInfix (needle : List Char) : List Char → Bool
  | [] => needle.isEmpty
  | c :: rest => needle.isPrefixOf (c :: rest) || charsInfix needle rest

/-- Python `needle in hay` on strings: substring containment. -/
def strContains (hay needle : String) : Bool :=
  charsInfix needle.toList hay.toList

/-- The keyword-override table of `post_process_mood`, in Python dict
insertion order. -/
def mood_keywords : List (String × List String) :=
  [("mysterious", ["호기심", "궁금", "신비"]),
   ("curious", ["호기심", "궁금한"]),
   ("suspense", ["긴장", "긴장감"]),
   ("horror", ["두려움", "공포", "무서운", "섬뜩"])]

/-- The explicit horror keywords re-checked inside the horror branch. -/
def horror_keywords : List String := ["두려움", "공포", "무서운", "섬뜩"]

/-- One iteration of the inner loop body of `post_process_mood`: given a
candidate override mood and one of its trigger keywords, return the overridden
analysis when the branch fires, `none` when the loop continues. -/
def try_keyword (analysis : MusicAnalysis) (prompt_lower : String) (mood : String)
    (keyword : String) : Option MusicAnalysis :=
  if strContains prompt_lower keyword then
    if mood == "horror" && analysis.primary_mood != "horror" then
      if horror_keywords.any (fun k => strContains prompt_lower k) then
        some { analysis with primary_mood := mood }
      else none
    else if (mood == "mysterious" || mood == "curious") && analysis.primary_mood == "horror" then
      some { analysis with primary_mood := mood }
    else none
  else none

/-- The inner keyword loop of `post_process_mood`. -/
def scan_keywords (analysis : MusicAnalysis) (prompt_lower : String) (mood : String) :
    List String → Option MusicAnalysis
  | [] => none
  | k :: ks =>
    match try_keyword analysis prompt_lower mood k with
    | some a => some a
    | none => scan_keywords analysis prompt_lower mood ks

/-- The outer mood loop of `post_process_mood`. -/
def scan_moods (analysis : MusicAnalysis) (prompt_lower : String) :
    List (String × List String) → MusicAnalysis
  | [] => analysis
  | (mood, kws) :: rest =>
    match scan_keywords analysis prompt_lower mood kws with
    | some a => a
    | none => scan_moods analysis prompt_lower rest

/-- `post_process_mood` (`main.py` 347-376): lower-case the original prompt
and scan the keyword table, returning at the first branch that fires. -/
def post_process_mood (analysis : MusicAnalysis) (original_prompt : String) :
    MusicAnalysis :=
  scan_moods analysis (strToLower original_prompt) mood_keywords

/-- Some mysterious-trigger keyword occurs in the (lowered) prompt. -/
def hasMystKeyword (p : String) : Bool :=
  (["호기심", "궁금", "신비"] : List String).any (fun k => strContains p k)

/-- Some curious-trigger keyword occurs in the (lowered) prompt. -/
def hasCuriousKeyword (p : String) : Bool :=
  (["호기심", "궁금한"] : List String).any (fun k => strContains p k)

/-- Some explicit horror keyword occurs in the (lowered) prompt. -/
def hasHorrorKeyword (p : String) : Bool :=
  horror_keywords.any (fun k => strContains p k)

/-! ### Mood catalog and track selection (`main.py` 74-175, 379-425) -/

/-- One `MUSIC_LIBRARY` value: keywords and candidate folders for a mood. -/
structure MoodEntry where
  keywords : List String
  folders : List String
deriving DecidableEq, Repr

/-- `MUSIC_LIBRARY` (`main.py` 75-152). -/
def MUSIC_LIBRARY : List (String × MoodEntry) :=
  [("peaceful", ⟨["평화", "평온", "고요", "잔잔", "평화로운", "차분한"],
      ["Miscellaneous_Chill_mp3", "Miscellaneous_Classical_mp3"]⟩),
   ("romantic", ⟨["로맨틱", "사랑", "로맨스", "달콤한", "감성적", "낭만적"],
      ["romantic", "Romantic_Sentimental_mp3"]⟩),
   ("mysterious", ⟨["신비", "미스터리", "불가사의", "수수께끼", "호기심"],
      ["Underscoring_mp3", "Electronic_mp3"]⟩),
   ("suspense", ⟨["긴장", "스릴", "서스펜스", "조마조마"],
      ["Underscoring_mp3", "Epic_Dramatic_mp3"]⟩),
   ("horror", ⟨["공포", "무서운", "두려움", "섬뜩한", "오싹한"],
      ["Horror_mp3"]⟩),
   ("action", ⟨["액션", "전투", "격렬", "싸움", "강렬한"],
      ["Epic_Dramatic_mp3", "Electronic_mp3"]⟩),
   ("fantasy", ⟨["판타지", "마법", "환상", "신비로운"],
      ["Fantasy_mp3", "World_mp3"]⟩),
   ("epic", ⟨["웅장", "장엄", "대서사", "영웅적", "위대한"],
      ["Epic_Dramatic_mp3"]⟩),
   ("comedy", ⟨["코미디", "재미있는", "유쾌한", "웃긴", "경쾌한"],
      ["Comedy_mp3", "Uplifting_mp3"]⟩),
   ("uplifting", ⟨["신나는", "즐거운", "활기찬", "상쾌한", "밝은"],
      ["Uplifting_mp3", "Electronic_mp3"]⟩),
   ("sad", ⟨["슬픈", "우울", "애수", "비극적", "눈물"],
      ["Romantic_Sentimental_mp3", "Underscoring_mp3"]⟩),
   ("exploration", ⟨["탐험", "모험", "여행", "발견", "탐사"],
      ["Fantasy_mp3", "World_mp3", "Miscellaneous_World_Folk_mp3"]⟩),
   ("dramatic", ⟨["드라마틱", "극적", "강렬", "감동적"],
      ["Epic_Dramatic_mp3", "Romantic_Sentimental_mp3"]⟩),
   ("tension", ⟨["긴장감", "팽팽한", "압박", "조급한"],
      ["Underscoring_mp3", "Electronic_mp3"]⟩),
   ("wonder", ⟨["경이", "놀라운", "신기한", "감탄"],
      ["Fantasy_mp3", "Uplifting_mp3"]⟩),
   ("curious", ⟨["호기심", "궁금한", "흥미로운"],
      ["Underscoring_mp3", "World_mp3"]⟩),
   ("isolation", ⟨["고립", "외로운", "쓸쓸한", "단절"],
      ["Underscoring_mp3", "Miscellaneous_Chill_mp3"]⟩),
   ("nostalgic", ⟨["향수", "그리운", "추억", "옛날"],
      ["Miscellaneous_Classical_mp3", "Miscellaneous_Jazz_mp3"]⟩),
   ("dark_comedy", ⟨["블랙코미디", "아이러니", "냉소적"],
      ["Comedy_mp3", "Underscoring_mp3"]⟩)]

/-- `MOOD_SIMILARITY` (`main.py` 155-175). -/
def MOOD_SIMILARITY : List (String × List String) :=
  [("peaceful", ["nostalgic", "isolation", "romantic"]),
   ("romantic", ["peaceful", "sad", "nostalgic"]),
   ("mysterious", ["curious", "suspense", "wonder"]),
   ("suspense", ["tension", "mysterious", "horror"]),
   ("horror", ["suspense", "tension", "dark_comedy"]),
   ("action", ["epic", "tension", "uplifting"]),
   ("fantasy", ["wonder", "exploration", "mysterious"]),
   ("epic", ["action", "dramatic", "fantasy"]),
   ("comedy", ["uplifting", "dark_comedy", "peaceful"]),
   ("uplifting", ["comedy", "action", "wonder"]),
   ("sad", ["romantic", "nostalgic", "isolation"]),
   ("exploration", ["fantasy", "wonder", "curious"]),
   ("dramatic", ["epic", "sad", "romantic"]),
   ("tension", ["suspense", "action", "horror"]),
   ("wonder", ["fantasy", "exploration", "uplifting"]),
   ("curious", ["mysterious", "exploration", "wonder"]),
   ("isolation", ["sad", "peaceful", "nostalgic"]),
   ("nostalgic", ["sad", "romantic", "peaceful"]),
   ("dark_comedy", ["comedy", "horror", "suspense"])]

/-- The folder list `MUSIC_LIBRARY[mood]['folders']` (empty for unknown moods,
which the code never indexes). -/
def foldersOf (mood : String) : List String :=
  ((dictFind MUSIC_LIBRARY mood).map MoodEntry.folders).getD []

/-- `MOOD_SIMILARITY.get(mood, [])`. -/
def chainOf (mood : String) : List String :=
  (dictFind MOOD_SIMILARITY mood).getD []

/-- Python `str.startswith`, modelled on the character lists. -/
def strStartsWith (s p : String) : Bool := p.toList.isPrefixOf s.toList

/-- `GCSMusicManager.get_files_from_folders` (`gcs_utils.py` 121-141): the
catalog entries whose path starts with one of the folders followed by a
slash. -/
def get_files_from_folders (all_files : List String) (folder_list : List String) :
    List String :=
  all_files.filter (fun file_path =>
    folder_list.any (fun folder => strStartsWith file_path (folder ++ "/")))

/-- The unknown-mood substitution at the top of `select_music_from_mood`
(`main.py` 384-386): an unknown mood becomes `"peaceful"`. -/
def effective_mood (mood : String) : String :=
  if MUSIC_LIBRARY.any (fun e => e.1 == mood) then mood else "peaceful"

/-- The similarity fallback loop of `select_music_from_mood` (`main.py`
399-405): adopt the first similar mood whose folders yield files. -/
def try_similar (all_files : List String) : List String → Option (String × List String)
  | [] => none
  | m :: rest =>
    let files := get_files_from_folders all_files (foldersOf m)
    if files.isEmpty then try_similar all_files rest else some (m, files)

/-- Mood resolution (`main.py` 384-409): substitute unknown moods, gather the
candidate files, fall back along the similarity chain when empty, and raise
404 (modelled as `Except.error`) when the whole chain is empty. -/
def resolve_candidates (all_files : List String) (mood : String) :
    Except String (String × List String) :=
  let m := effective_mood mood
  let files := get_files_from_folders all_files (foldersOf m)
  if files.isEmpty then
    match try_similar all_files (chainOf m) with
    | some (m2, files2) => .ok (m2, files2)
    | none => .error ("No music files found for mood " ++ m)
  else .ok (m, files)

/-- `recent_tracks.append` on a `deque(maxlen=RECENT_TRACKS_SIZE)`: append on
the right, silently dropping the oldest entries beyond the capacity. -/
def dequeAppend (recent : List String) (x : String) : List String :=
  let r := recent ++ [x]
  if RECENT_TRACKS_SIZE < r.length then r.drop (r.length - RECENT_TRACKS_SIZE) else r

/-- The duplicate-avoidance step (`main.py` 411-416): when more candidates
than the recent-history capacity exist, drop recently played tracks unless
that would empty the pool. -/
def apply_recent_filter (recent files0 : List String) (avoid_duplicates : Bool) :
    List String :=
  if avoid_duplicates && decide (RECENT_TRACKS_SIZE < files0.length) then
    let available := files0.filter (fun f => !(recent.contains f))
    if available.isEmpty then files0 else available
  else files0

/-- `select_music_from_mood` (`main.py` 379-425).  `random.choice` is modelled
by the oracle index `pick` reduced modulo the candidate count.  Returns the
selected track and the updated recent-history deque. -/
def select_music_from_mood (all_files : List String) (recent : List String)
    (pick : Nat) (mood : String) (avoid_duplicates : Bool) :
    Except String (String × List String) :=
  match resolve_candidates all_files mood with
  | .error e => .error e
  | .ok (_, files0) =>
    let files := apply_recent_filter recent files0 avoid_duplicates
    let selected := files.getD (pick % files.length) ""
    .ok (selected, dequeAppend recent selected)

/-! ### Signed-URL cache (`main.py` 232-256, 447-457) -/

/-- `get_cached_signed_url` (`main.py` 232-247): entries older than 50
minutes are deleted at read time and treated as absent. -/
def get_cached_signed_url (now : ℚ) (cache : UrlCache) (blob_name : String) :
    Option String × UrlCache :=
  match dictFind cache blob_name with
  | none => (none, cache)
  | some cached =>
    if (now - cached.timestamp) / 60 > URL_CACHE_EXPIRY_MINUTES then
      (none, dictErase cache blob_name)
    else (some cached.url, cache)

/-- `cache_signed_url` (`main.py` 250-256). -/
def cache_signed_url (now : ℚ) (cache : UrlCache) (blob_name url : String) : UrlCache :=
  dictInsert cache blob_name ⟨url, now⟩

/-- Outcome of the URL step of the `analyze` endpoint: the streaming URL (if
any), the URL cache afterwards, and how many signer calls were made. -/
structure UrlOutcome where
  url : Option String
  cache : UrlCache
  signerCalls : Nat
deriving DecidableEq, Repr

/-- Step 4 of the `analyze` endpoint (`main.py` 447-457): serve the signed
URL from the cache, otherwise mint one via the external signer (modelled as
the oracle `signer`, `none` on signer failure) and cache it on success. -/
def obtain_streaming_url (signer : String → Option String) (now : ℚ)
    (cache : UrlCache) (blob_name : String) : UrlOutcome :=
  match get_cached_signed_url now cache blob_name with
  | (some u, cache1) => ⟨some u, cache1, 0⟩
  | (none, cache1) =>
    match signer blob_name with
    | some u => ⟨some u, cache_signed_url now cache1 blob_name u, 1⟩
    | none => ⟨none, cache1, 1⟩

/-! ## Lemmas about the post-processing correction pass -/

lemma scan_keywords_override (a : MusicAnalysis) (t m : String) (kws : List String)
    (hm : m = "mysterious" ∨ m = "curious") (hp : a.primary_mood = "horror") :
    scan_keywords a t m kws =
      if kws.any (fun k => strContains t k) then some { a with primary_mood := m }
      else none := by
  have hnot : (m == "horror") = false := by
    rcases hm with hm | hm <;> subst hm <;> decide
  have hyes : (m == "mysterious" || m == "curious") = true := by
    rcases hm with hm | hm <;> subst hm <;> decide
  induction kws with
  | nil => simp [scan_keywords]
  | cons k ks ih =>
    cases hc : strContains t k <;>
      simp [scan_keywords, try_keyword, hc, hnot, hyes, hp, ih, List.any_cons]

lemma scan_keywords_mystcur_none (a : MusicAnalysis) (t m : String) (kws : List String)
    (hp : a.primary_mood ≠ "horror") (hnot : (m == "horror") = false) :
    scan_keywords a t m kws = none := by
  have hp2 : (a.primary_mood == "horror") = false := by
    simp [hp]
  induction kws with
  | nil => simp [scan_keywords]
  | cons k ks ih =>
    cases hc : strContains t k <;>
      simp [scan_keywords, try_keyword, hc, hnot, hp2, ih]

lemma scan_keywords_suspense (a : MusicAnalysis) (t : String) (kws : List String) :
    scan_keywords a t "suspense" kws = none := by
  induction kws with
  | nil => simp [scan_keywords]
  | cons k ks ih =>
    cases hc : strContains t k <;>
      simp [scan_keywords, try_keyword, hc, ih]

lemma scan_keywords_horror_same (a : MusicAnalysis) (t : String) (kws : List String)
    (hp : a.primary_mood = "horror") :
    scan_keywords a t "horror" kws = none := by
  induction kws with
  | nil => simp [scan_keywords]
  | cons k ks ih =>
    cases hc : strContains t k <;>
      simp [scan_keywords, try_keyword, hc, hp, ih]

lemma scan_keywords_horror (a : MusicAnalysis) (t : String) (kws : List String)
    (hp : a.primary_mood ≠ "horror") :
    scan_keywords a t "horror" kws =
      if kws.any (fun k => strContains t k) && hasHorrorKeyword t then
        some { a with primary_mood := "horror" }
      else none := by
  have hp2 : (a.primary_mood != "horror") = true := by
    simp [bne, hp]
  cases hH : hasHorrorKeyword t
  case false =>
    have hH2 : horror_keywords.any (fun k => strContains t k) = false := hH
    induction kws with
    | nil => simp [scan_keywords]
    | cons k ks ih =>
      cases hc : strContains t k <;>
        simp [scan_keywords, try_keyword, hc, hp2, hH2, ih]
  case true =>
    have hH2 : horror_keywords.any (fun k => strContains t k) = true := hH
    induction kws with
    | nil => simp [scan_keywords]
    | cons k ks ih =>
      cases hc : strContains t k <;>
        simp [scan_keywords, try_keyword, hc, hp2, hH2, ih]

/-- Closed-form characterization of `post_process_mood`: with a horror
primary mood, the first matching mysterious/curious trigger rewrites it;
otherwise a present horror keyword rewrites the primary mood to horror;
nothing else changes. -/
lemma post_process_eq (a : MusicAnalysis) (t : String) :
    post_process_mood a t =
      if a.primary_mood = "horror" then
        if hasMystKeyword (strToLower t) then { a with primary_mood := "mysterious" }
        else if hasCuriousKeyword (strToLower t) then { a with primary_mood := "curious" }
        else a
      else if hasHorrorKeyword (strToLower t) then { a with primary_mood := "horror" }
      else a := by
  by_cases hp : a.primary_mood = "horror"
  · have hmy := scan_keywords_override a (strToLower t) "mysterious"
      ["호기심", "궁금", "신비"] (Or.inl rfl) hp
    have hcu := scan_keywords_override a (strToLower t) "curious"
      ["호기심", "궁금한"] (Or.inr rfl) hp
    have hsu := scan_keywords_suspense a (strToLower t) ["긴장", "긴장감"]
    have hho := scan_keywords_horror_same a (strToLower t) ["두려움", "공포", "무서운", "섬뜩"] hp
    cases m1 : strContains (strToLower t) "호기심" <;>
      cases m2 : strContains (strToLower t) "궁금" <;>
        cases m3 : strContains (strToLower t) "신비" <;>
          cases m4 : strContains (strToLower t) "궁금한" <;>
            simp [post_process_mood, mood_keywords, scan_moods, hmy, hcu, hsu, hho, hp,
              hasMystKeyword, hasCuriousKeyword, m1, m2, m3, m4]
  · have hmy := scan_keywords_mystcur_none a (strToLower t) "mysterious"
      ["호기심", "궁금", "신비"] hp (by decide)
    have hcu := scan_keywords_mystcur_none a (strToLower t) "curious"
      ["호기심", "궁금한"] hp (by decide)
    have hsu := scan_keywords_suspense a (strToLower t) ["긴장", "긴장감"]
    have hho := scan_keywords_horror a (strToLower t) ["두려움", "공포", "무서운", "섬뜩"] hp
    cases m1 : strContains (strToLower t) "두려움" <;>
      cases m2 : strContains (strToLower t) "공포" <;>
        cases m3 : strContains (strToLower t) "무서운" <;>
          cases m4 : strContains (strToLower t) "섬뜩" <;>
            simp [post_process_mood, mood_keywords, scan_moods, hmy, hcu, hsu, hho, hp,
              hasHorrorKeyword, horror_keywords, m1, m2, m3, m4]

/-- A sample classifier result used in concrete instantiations. -/
def cex_analysis : MusicAnalysis := ⟨"peaceful", none, 1/2, [], ""⟩

/-- C1 (counterexample): `post_process_mood` is NOT idempotent.  On the text
"호기심 두려움" (containing both a curiosity keyword and a horror keyword) a
"peaceful" result is first overridden to "horror", and a second application
overrides that to "mysterious": applying the correction twice differs from
applying it once. -/
theorem post_process_not_idempotent :
    post_process_mood (post_process_mood cex_analysis "호기심 두려움") "호기심 두려움" ≠
      post_process_mood cex_analysis "호기심 두려움" := by decide

/-- C1 (amended): the correction pass is idempotent for every classifier
result and every text that does not contain both an explicit horror keyword
and a mysterious/curious trigger keyword. -/
theorem post_process_idempotent (a : MusicAnalysis) (t : String)
    (h : ¬(hasHorrorKeyword (strToLower t) = true ∧
           (hasMystKeyword (strToLower t) = true ∨ hasCuriousKeyword (strToLower t) = true))) :
    post_process_mood (post_process_mood a t) t = post_process_mood a t := by
  by_cases hp : a.primary_mood = "horror" <;>
    cases h1 : hasMystKeyword (strToLower t) <;>
      cases h2 : hasCuriousKeyword (strToLower t) <;>
        cases hH : hasHorrorKeyword (strToLower t) <;>
          simp_all [post_process_eq]

/-- C1 (witness): the amended idempotency at the concrete text "공포" (a
horror keyword with no curiosity trigger) and a "peaceful" result. -/
theorem post_process_idempotent_witness :
    post_process_mood (post_process_mood cex_analysis "공포") "공포" =
      post_process_mood cex_analysis "공포" :=
  post_process_idempotent cex_analysis "공포" (by decide)

/-- C10: the correction pass either returns its input unchanged or returns it
with `primary_mood` overridden to one of "horror", "mysterious" or "curious"
(never "suspense", and never changing any other field). -/
theorem post_process_shape (a : MusicAnalysis) (t : String) :
    post_process_mood a t = a ∨
      ∃ m, (m = "horror" ∨ m = "mysterious" ∨ m = "curious") ∧
        post_process_mood a t = { a with primary_mood := m } := by
  by_cases hp : a.primary_mood = "horror"
  · cases h1 : hasMystKeyword (strToLower t)
    · cases h2 : hasCuriousKeyword (strToLower t)
      · left; rw [post_process_eq]; simp [hp, h1, h2]
      · right
        exact ⟨"curious", by simp, by rw [post_process_eq]; simp [hp, h1, h2]⟩
    · right
      exact ⟨"mysterious", by simp, by rw [post_process_eq]; simp [hp, h1]⟩
  · cases hH : hasHorrorKeyword (strToLower t)
    · left; rw [post_process_eq]; simp [hp, hH]
    · right
      exact ⟨"horror", by simp, by rw [post_process_eq]; simp [hp, hH]⟩

/-! ## Lemmas about the dict model and the classifier cache -/

lemma mem_dictErase {V : Type} {c : Dict V} {k : String} {e : String × V}
    (he : e ∈ dictErase c k) : e ∈ c :=
  (List.mem_filter.mp he).1

lemma dictFind_eq_none_of_fresh {V : Type} {c : Dict V} {k : String}
    (hfresh : ∀ e ∈ c, e.1 ≠ k) : dictFind c k = none := by
  have : c.find? (fun e => e.1 == k) = none := by
    rw [List.find?_eq_none]
    intro x hx
    simp [hfresh x hx]
  simp [dictFind, this]

lemma dictFind_append_fresh {V : Type} (c : Dict V) (k : String) (v : V)
    (hfresh : ∀ e ∈ c, e.1 ≠ k) : dictFind (c ++ [(k, v)]) k = some v := by
  induction c with
  | nil => simp [dictFind, List.find?]
  | cons e es ih =>
    have h1 : (e.1 == k) = false := by
      simp [hfresh e (List.mem_cons_self e es)]
    have ih2 := ih (fun x hx => hfresh x (List.mem_cons_of_mem _ hx))
    simpa [dictFind, List.find?, h1] using ih2

lemma dictFind_insert_fresh {V : Type} (c : Dict V) (k : String) (v : V)
    (hfresh : ∀ e ∈ c, e.1 ≠ k) : dictFind (dictInsert c k v) k = some v := by
  have hany : c.any (fun e => e.1 == k) = false := by
    rw [List.any_eq_false]
    intro x hx
    simp [hfresh x hx]
  rw [dictInsert, if_neg (by simp [hany])]
  exact dictFind_append_fresh c k v hfresh

/-- After a fresh insertion, `cache_gpt_response` leaves the new record
retrievable under the prompt hash with the insertion timestamp. -/
lemma cache_gpt_response_fresh_find (now : ℚ) (c : GptCache) (p : String)
    (r : MusicAnalysis) (hfresh : ∀ e ∈ c, e.1 ≠ get_prompt_hash p) :
    dictFind (cache_gpt_response now c p r) (get_prompt_hash p) =
      some ⟨r, now⟩ := by
  rw [cache_gpt_response]
  by_cases hlen : GPT_CACHE_MAX_SIZE ≤ c.length
  · cases hmin : minTimestampKey c with
    | none =>
      simp only [hlen, if_true, hmin]
      exact dictFind_insert_fresh _ _ _ hfresh
    | some oldest =>
      simp only [hlen, if_true, hmin]
      exact dictFind_insert_fresh _ _ _ (fun e he => hfresh e (mem_dictErase he))
  · simp only [hlen, if_false]
    exact dictFind_insert_fresh _ _ _ hfresh

lemma range_three : List.range 3 = [0, 1, 2] := rfl

/-- Shape of the first (cache-missing) gateway call when the very first
backend attempt succeeds. -/
lemma analyze_first_success (backend : Nat → Option MusicAnalysis) (t1 : ℚ)
    (prompt : String) (c : GptCache) (r : MusicAnalysis)
    (hfresh : ∀ e ∈ c, e.1 ≠ get_prompt_hash prompt)
    (hb : backend 0 = some r) :
    analyze_scene_with_gpt backend t1 prompt c 3 =
      ⟨r, cache_gpt_response t1 c prompt r, 1, []⟩ := by
  have hf : dictFind c (get_prompt_hash prompt) = none :=
    dictFind_eq_none_of_fresh hfresh
  rw [analyze_scene_with_gpt]
  rw [show get_cached_gpt_response t1 c prompt = (none, c) by
    rw [get_cached_gpt_response]; simp [hf]]
  rw [range_three]
  simp only [retry_go, hb]

/-- C2: starting from a cache with no record for the text, if the first
classifier attempt of the first `classify` call succeeds, then that call makes
exactly one external classifier call, and a second `classify` call for the
same text within the 24-hour expiry window makes zero external calls and is
served the cached result — at most one external call in total. -/
theorem classify_twice_cached (backend1 backend2 : Nat → Option MusicAnalysis)
    (c : GptCache) (prompt : String) (t1 t2 : ℚ) (r : MusicAnalysis)
    (hfresh : ∀ e ∈ c, e.1 ≠ get_prompt_hash prompt)
    (hb : backend1 0 = some r)
    (hwin : (t2 - t1) / 3600 ≤ GPT_CACHE_EXPIRY_HOURS) :
    (analyze_scene_with_gpt backend1 t1 prompt c 3).externalCalls = 1 ∧
    (analyze_scene_with_gpt backend2 t2 prompt
        (analyze_scene_with_gpt backend1 t1 prompt c 3).cache 3).externalCalls = 0 ∧
    (analyze_scene_with_gpt backend2 t2 prompt
        (analyze_scene_with_gpt backend1 t1 prompt c 3).cache 3).result = r := by
  have h1 := analyze_first_success backend1 t1 prompt c r hfresh hb
  have hfind := cache_gpt_response_fresh_find t1 c prompt r hfresh
  have h2 : get_cached_gpt_response t2 (cache_gpt_response t1 c prompt r) prompt =
      (some r, cache_gpt_response t1 c prompt r) := by
    rw [get_cached_gpt_response]
    simp only [hfind]
    rw [if_neg (not_lt.mpr hwin)]
  have h3 : analyze_scene_with_gpt backend2 t2 prompt
      (cache_gpt_response t1 c prompt r) 3 =
        ⟨r, cache_gpt_response t1 c prompt r, 0, []⟩ := by
    rw [analyze_scene_with_gpt, h2]
  rw [h1]
  exact ⟨rfl, by simp [h3], by simp [h3]⟩

/-- A backend whose every attempt succeeds with `cex_analysis`. -/
def const_backend : Nat → Option MusicAnalysis := fun _ => some cex_analysis

/-- A backend whose every attempt fails. -/
def fail_backend : Nat → Option MusicAnalysis := fun _ => none

/-- C2 (witness): concrete instantiation — empty cache, first call at time 0
with a succeeding backend, second call at time 100 with a failing backend. -/
theorem classify_twice_cached_witness :
    (analyze_scene_with_gpt const_backend 0 "p" [] 3).externalCalls = 1 ∧
    (analyze_scene_with_gpt fail_backend 100 "p"
        (analyze_scene_with_gpt const_backend 0 "p" [] 3).cache 3).externalCalls = 0 ∧
    (analyze_scene_with_gpt fail_backend 100 "p"
        (analyze_scene_with_gpt const_backend 0 "p" [] 3).cache 3).result = cex_analysis :=
  classify_twice_cached const_backend fail_backend [] "p" 0 100 cex_analysis
    (by simp) rfl (by norm_num [GPT_CACHE_EXPIRY_HOURS])

/-! ## The eviction policy of the classifier cache (C3) -/

/-- The running minimum of Python `min` over the timestamps: it is one of the
candidates and its timestamp is minimal among them. -/
lemma foldl_min_spec (l : List (String × GptEntry)) :
    ∀ e : String × GptEntry,
      (l.foldl (fun best x => if x.2.timestamp < best.2.timestamp then x else best) e
          ∈ e :: l) ∧
      (∀ x ∈ e :: l,
        (l.foldl (fun best x => if x.2.timestamp < best.2.timestamp then x else best)
            e).2.timestamp ≤ x.2.timestamp) := by
  induction l with
  | nil =>
    intro e
    constructor
    · simp
    · intro x hx
      rcases List.mem_singleton.mp hx with rfl
      exact le_refl _
  | cons a rest ih =>
    intro e
    simp only [List.foldl_cons]
    have ihs := ih (if a.2.timestamp < e.2.timestamp then a else e)
    have hhead : (if a.2.timestamp < e.2.timestamp then a else e) ∈ e :: a :: rest := by
      by_cases hc : a.2.timestamp < e.2.timestamp
      · rw [if_pos hc]
        exact List.mem_cons_of_mem _ (List.mem_cons_self a rest)
      · rw [if_neg hc]
        exact List.mem_cons_self e _
    constructor
    · rcases List.mem_cons.mp ihs.1 with h | h
      · rw [h]
        exact hhead
      · exact List.mem_cons_of_mem _ (List.mem_cons_of_mem _ h)
    · intro x hx
      have hmin := ihs.2 _ (List.mem_cons_self _ rest)
      have hea : (if a.2.timestamp < e.2.timestamp then a else e).2.timestamp ≤
          e.2.timestamp := by
        by_cases hc : a.2.timestamp < e.2.timestamp
        · rw [if_pos hc]; exact le_of_lt hc
        · rw [if_neg hc]
      have haa : (if a.2.timestamp < e.2.timestamp then a else e).2.timestamp ≤
          a.2.timestamp := by
        by_cases hc : a.2.timestamp < e.2.timestamp
        · rw [if_pos hc]
        · rw [if_neg hc]; exact le_of_not_lt hc
      rcases List.mem_cons.mp hx with rfl | hx2
      · exact le_trans hmin hea
      rcases List.mem_cons.mp hx2 with rfl | hx3
      · exact le_trans hmin haa
      · exact ihs.2 x (List.mem_cons_of_mem _ hx3)

/-- The entry chosen for eviction is a member of the cache with globally
minimal creation timestamp. -/
lemma minTimestampKey_spec (c : GptCache) (k : String) (e : GptEntry)
    (h : minTimestampKey c = some (k, e)) :
    (k, e) ∈ c ∧ ∀ x ∈ c, e.timestamp ≤ x.2.timestamp := by
  cases c with
  | nil => cases h
  | cons a rest =>
    rw [minTimestampKey] at h
    have h2 := Option.some.inj h
    have hs := foldl_min_spec rest a
    rw [h2] at hs
    exact ⟨hs.1, fun x hx => hs.2 x hx⟩

lemma dictErase_eq_self {V : Type} (c : Dict V) (k : String)
    (h : ∀ e ∈ c, e.1 ≠ k) : dictErase c k = c := by
  rw [dictErase, List.filter_eq_self]
  intro e he
  simp [h e he]

/-- With unique keys, erasing a present key removes exactly one entry. -/
lemma dictErase_length {V : Type} (c : Dict V) (k : String)
    (hmem : ∃ v, (k, v) ∈ c) (hnodup : (c.map Prod.fst).Nodup) :
    (dictErase c k).length + 1 = c.length := by
  induction c with
  | nil => rcases hmem with ⟨v, hv⟩; cases hv
  | cons a rest ih =>
    rw [List.map_cons, List.nodup_cons] at hnodup
    by_cases hk : a.1 = k
    · have hrest : ∀ e ∈ rest, e.1 ≠ k := by
        intro e he heq
        apply hnodup.1
        rw [hk, ← heq]
        exact List.mem_map_of_mem Prod.fst he
      rw [dictErase, List.filter_cons]
      rw [if_neg (by simp [hk])]
      rw [show List.filter (fun e => !(e.1 == k)) rest = rest from
        dictErase_eq_self rest k hrest]
      simp
    · rcases hmem with ⟨v, hv⟩
      rcases List.mem_cons.mp hv with heq | hv2
      · exact absurd (congrArg Prod.fst heq).symm hk
      · rw [dictErase, List.filter_cons, if_pos (by simp [hk])]
        have := ih ⟨v, hv2⟩ hnodup.2
        simp only [List.length_cons]
        rw [← this]
        rfl

lemma dictInsert_length_le {V : Type} (c : Dict V) (k : String) (v : V) :
    (dictInsert c k v).length ≤ c.length + 1 := by
  rw [dictInsert]
  by_cases h : c.any (fun e => e.1 == k)
  · rw [if_pos h, List.length_map]
    exact Nat.le_succ _
  · rw [if_neg h, List.length_append]
    simp

/-- C3: insertion into the classifier cache preserves the 100-entry bound,
and an insertion performed when the cache is at (or beyond) capacity first
evicts exactly one entry — one with the globally smallest creation
timestamp — and nothing else. -/
theorem gpt_cache_bounded_evicts_oldest (now : ℚ) (c : GptCache) (p : String)
    (r : MusicAnalysis) (hb : c.length ≤ GPT_CACHE_MAX_SIZE)
    (hnodup : (c.map Prod.fst).Nodup) :
    (cache_gpt_response now c p r).length ≤ GPT_CACHE_MAX_SIZE ∧
    (GPT_CACHE_MAX_SIZE ≤ c.length →
      ∃ k e, minTimestampKey c = some (k, e) ∧ (k, e) ∈ c ∧
        (∀ x ∈ c, e.timestamp ≤ x.2.timestamp) ∧
        (dictErase c k).length + 1 = c.length ∧
        cache_gpt_response now c p r =
          dictInsert (dictErase c k) (get_prompt_hash p) ⟨r, now⟩) := by
  have hmain : GPT_CACHE_MAX_SIZE ≤ c.length →
      ∃ k e, minTimestampKey c = some (k, e) ∧ (k, e) ∈ c ∧
        (∀ x ∈ c, e.timestamp ≤ x.2.timestamp) ∧
        (dictErase c k).length + 1 = c.length ∧
        cache_gpt_response now c p r =
          dictInsert (dictErase c k) (get_prompt_hash p) ⟨r, now⟩ := by
    intro hfull
    have hne : c ≠ [] := by
      intro hc
      rw [hc] at hfull
      simp [GPT_CACHE_MAX_SIZE] at hfull
    obtain ⟨ke, hke⟩ : ∃ ke, minTimestampKey c = some ke := by
      cases c with
      | nil => exact absurd rfl hne
      | cons a rest => exact ⟨_, rfl⟩
    obtain ⟨k, e⟩ := ke
    have hspec := minTimestampKey_spec c k e hke
    refine ⟨k, e, hke, hspec.1, hspec.2, ?_, ?_⟩
    · exact dictErase_length c k ⟨e, hspec.1⟩ hnodup
    · rw [cache_gpt_response]
      rw [if_pos hfull, hke]
  refine ⟨?_, hmain⟩
  by_cases hfull : GPT_CACHE_MAX_SIZE ≤ c.length
  · obtain ⟨k, e, _, _, _, hlen, heq⟩ := hmain hfull
    rw [heq]
    calc (dictInsert (dictErase c k) (get_prompt_hash p) ⟨r, now⟩).length
        ≤ (dictErase c k).length + 1 := dictInsert_length_le _ _ _
      _ = c.length := hlen
      _ ≤ GPT_CACHE_MAX_SIZE := hb
  · rw [cache_gpt_response, if_neg hfull]
    calc (dictInsert c (get_prompt_hash p) ⟨r, now⟩).length
        ≤ c.length + 1 := dictInsert_length_le _ _ _
      _ ≤ GPT_CACHE_MAX_SIZE := Nat.succ_le_of_lt (Nat.lt_of_not_le hfull)

/-- A 100-entry classifier cache with pairwise distinct keys and increasing
timestamps, used to instantiate the eviction theorem. -/
def witness_cache : GptCache :=
  (List.range 100).map (fun i => (Nat.repr i, ⟨cex_analysis, (i : ℚ)⟩))

/-- C3 (witness): the bound and the oldest-first eviction at a concrete full
cache of 100 distinct keys. -/
theorem gpt_cache_bounded_evicts_oldest_witness :
    (cache_gpt_response 1000 witness_cache "p" cex_analysis).length ≤ GPT_CACHE_MAX_SIZE ∧
    (GPT_CACHE_MAX_SIZE ≤ witness_cache.length →
      ∃ k e, minTimestampKey witness_cache = some (k, e) ∧ (k, e) ∈ witness_cache ∧
        (∀ x ∈ witness_cache, e.timestamp ≤ x.2.timestamp) ∧
        (dictErase witness_cache k).length + 1 = witness_cache.length ∧
        cache_gpt_response 1000 witness_cache "p" cex_analysis =
          dictInsert (dictErase witness_cache k) (get_prompt_hash "p")
            ⟨cex_analysis, 1000⟩) :=
  gpt_cache_bounded_evicts_oldest 1000 witness_cache "p" cex_analysis
    (by decide) (by decide)

/-! ## Retry backoff and the failure default (C7, C8) -/

/-- On a cache miss the gateway call reduces to the retry loop run on the
post-lookup cache over attempt indices 0, 1, 2. -/
lemma analyze_miss_eq_retry (backend : Nat → Option MusicAnalysis) (now : ℚ)
    (prompt : String) (c : GptCache)
    (hmiss : (get_cached_gpt_response now c prompt).1 = none) :
    analyze_scene_with_gpt backend now prompt c 3 =
      retry_go backend now prompt (get_cached_gpt_response now c prompt).2 3
        [0, 1, 2] 0 [] := by
  have hpair : get_cached_gpt_response now c prompt =
      (none, (get_cached_gpt_response now c prompt).2) := by
    rw [← hmiss]
  rw [analyze_scene_with_gpt, hpair]
  rfl

/-- C7 (counterexample): with every classifier attempt failing, the backoff
sleeps actually performed are 2 and 4 seconds — the claimed sequence
2, 4, 6 never occurs because the final failed attempt triggers no sleep. -/
theorem retry_backoff_cex :
    (analyze_scene_with_gpt fail_backend 0 "p" [] 3).sleeps = [2, 4] ∧
    (analyze_scene_with_gpt fail_backend 0 "p" [] 3).sleeps ≠ [2, 4, 6] := by
  constructor <;> decide

/-- C7 (amended): on a cache miss the gateway calls the external classifier
at most 3 times, and when every attempt fails it makes exactly 3 external
calls with the backoff sleeps 2 then 4 (the failure of the final attempt
triggers no sleep). -/
theorem retry_backoff (backend : Nat → Option MusicAnalysis) (now : ℚ)
    (prompt : String) (c : GptCache)
    (hmiss : (get_cached_gpt_response now c prompt).1 = none) :
    (analyze_scene_with_gpt backend now prompt c 3).externalCalls ≤ 3 ∧
    ((∀ i, i < 3 → backend i = none) →
      (analyze_scene_with_gpt backend now prompt c 3).externalCalls = 3 ∧
      (analyze_scene_with_gpt backend now prompt c 3).sleeps = [2, 4]) := by
  rw [analyze_miss_eq_retry backend now prompt c hmiss]
  constructor
  · cases hb0 : backend 0 <;> cases hb1 : backend 1 <;> cases hb2 : backend 2 <;>
      simp [retry_go, hb0, hb1, hb2]
  · intro hfail
    have h0 := hfail 0 (by norm_num)
    have h1 := hfail 1 (by norm_num)
    have h2 := hfail 2 (by norm_num)
    simp [retry_go, h0, h1, h2]

/-- C7 (witness): the amended backoff behavior at the always-failing backend
on an empty cache. -/
theorem retry_backoff_witness :
    (analyze_scene_with_gpt fail_backend 0 "p" [] 3).externalCalls ≤ 3 ∧
    ((∀ i, i < 3 → fail_backend i = none) →
      (analyze_scene_with_gpt fail_backend 0 "p" [] 3).externalCalls = 3 ∧
      (analyze_scene_with_gpt fail_backend 0 "p" [] 3).sleeps = [2, 4]) :=
  retry_backoff fail_backend 0 "p" [] rfl

lemma dictFind_erase_self {V : Type} (c : Dict V) (k : String) :
    dictFind (dictErase c k) k = none := by
  apply dictFind_eq_none_of_fresh
  intro e he heq
  have hf := (List.mem_filter.mp he).2
  simp [heq] at hf

/-- After a missing lookup, the post-lookup cache still has no record under
the prompt hash. -/
lemma get_cached_none_find (now : ℚ) (c : GptCache) (prompt : String)
    (hmiss : (get_cached_gpt_response now c prompt).1 = none) :
    dictFind (get_cached_gpt_response now c prompt).2 (get_prompt_hash prompt) =
      none := by
  rw [get_cached_gpt_response] at hmiss ⊢
  cases hf : dictFind c (get_prompt_hash prompt) with
  | none => simp [hf]
  | some cached =>
    by_cases hexp : (now - cached.timestamp) / 3600 > GPT_CACHE_EXPIRY_HOURS
    · simp only [hf, if_pos hexp]
      exact dictFind_erase_self c (get_prompt_hash prompt)
    · rw [hf] at hmiss
      simp [hexp] at hmiss

/-- C8: when the lookup misses and every classifier attempt fails, the
gateway returns the hard-coded "peaceful" default, the cache is exactly the
post-lookup cache (the default is not inserted — in particular no record
exists under the prompt hash), and the call still returns a result rather
than an error. -/
theorem classify_failure_default (backend : Nat → Option MusicAnalysis)
    (now : ℚ) (prompt : String) (c : GptCache)
    (hmiss : (get_cached_gpt_response now c prompt).1 = none)
    (hfail : ∀ i, i < 3 → backend i = none) :
    (analyze_scene_with_gpt backend now prompt c 3).result = default_analysis ∧
    (analyze_scene_with_gpt backend now prompt c 3).cache =
      (get_cached_gpt_response now c prompt).2 ∧
    dictFind (analyze_scene_with_gpt backend now prompt c 3).cache
      (get_prompt_hash prompt) = none := by
  have h0 := hfail 0 (by norm_num)
  have h1 := hfail 1 (by norm_num)
  have h2 := hfail 2 (by norm_num)
  have hfind := get_cached_none_find now c prompt hmiss
  rw [analyze_miss_eq_retry backend now prompt c hmiss]
  refine ⟨?_, ?_, ?_⟩ <;> simp [retry_go, h0, h1, h2, hfind]

/-- C8 (witness): the failure default at the always-failing backend on an
empty cache. -/
theorem classify_failure_default_witness :
    (analyze_scene_with_gpt fail_backend 0 "q" [] 3).result = default_analysis ∧
    (analyze_scene_with_gpt fail_backend 0 "q" [] 3).cache =
      (get_cached_gpt_response 0 [] "q").2 ∧
    dictFind (analyze_scene_with_gpt fail_backend 0 "q" [] 3).cache
      (get_prompt_hash "q") = none :=
  classify_failure_default fail_backend 0 "q" [] rfl (fun _ _ => rfl)

/-! ## Lemmas about mood resolution and track selection (C4, C5, C6) -/

lemma getD_mod_mem (l : List String) (h : l ≠ []) (i : Nat) :
    l.getD (i % l.length) "" ∈ l := by
  have hlt : i % l.length < l.length := Nat.mod_lt _ (List.length_pos.mpr h)
  rw [List.getD_eq_getElem?_getD, List.getElem?_eq_getElem hlt]
  exact List.getElem_mem hlt

lemma apply_recent_filter_subset (recent files0 : List String) (avoid : Bool) :
    ∀ x ∈ apply_recent_filter recent files0 avoid, x ∈ files0 := by
  intro x hx
  rw [apply_recent_filter] at hx
  by_cases hc : (avoid && decide (RECENT_TRACKS_SIZE < files0.length)) = true
  · rw [if_pos hc] at hx
    dsimp only at hx
    by_cases he : (files0.filter (fun f => !(recent.contains f))).isEmpty = true
    · rw [if_pos he] at hx
      exact hx
    · rw [if_neg he] at hx
      exact (List.mem_filter.mp hx).1
  · rw [if_neg hc] at hx
    exact hx

lemma apply_recent_filter_ne_nil (recent files0 : List String) (avoid : Bool)
    (h : files0 ≠ []) : apply_recent_filter recent files0 avoid ≠ [] := by
  rw [apply_recent_filter]
  by_cases hc : (avoid && decide (RECENT_TRACKS_SIZE < files0.length)) = true
  · rw [if_pos hc]
    dsimp only
    by_cases he : (files0.filter (fun f => !(recent.contains f))).isEmpty = true
    · rw [if_pos he]
      exact h
    · rw [if_neg he]
      simpa [List.isEmpty_iff] using he
  · rw [if_neg hc]
    exact h

lemma apply_recent_filter_avoid_eq (recent files0 : List String)
    (hlen : RECENT_TRACKS_SIZE < files0.length)
    (hne : files0.filter (fun f => !(recent.contains f)) ≠ []) :
    apply_recent_filter recent files0 true =
      files0.filter (fun f => !(recent.contains f)) := by
  rw [apply_recent_filter, if_pos (by simp [hlen])]
  dsimp only
  rw [if_neg (by simpa [List.isEmpty_iff] using hne)]

lemma apply_recent_filter_full_eq (recent files0 : List String)
    (hlen : RECENT_TRACKS_SIZE < files0.length)
    (he : files0.filter (fun f => !(recent.contains f)) = []) :
    apply_recent_filter recent files0 true = files0 := by
  rw [apply_recent_filter, if_pos (by simp [hlen])]
  dsimp only
  rw [if_pos (by rw [List.isEmpty_iff]; exact he)]

/-- Once the mood is resolved, `select_music_from_mood` picks from the
recent-filtered pool and appends the pick to the history. -/
lemma select_eq_of_resolve (all_files recent : List String) (pick : Nat)
    (mood m : String) (files0 : List String) (avoid : Bool)
    (hres : resolve_candidates all_files mood = .ok (m, files0)) :
    select_music_from_mood all_files recent pick mood avoid =
      .ok ((apply_recent_filter recent files0 avoid).getD
             (pick % (apply_recent_filter recent files0 avoid).length) "",
           dequeAppend recent
             ((apply_recent_filter recent files0 avoid).getD
               (pick % (apply_recent_filter recent files0 avoid).length) "")) := by
  rw [select_music_from_mood, hres]

/-- C4: when the resolved candidate pool is strictly larger than the
recent-history capacity, a selected track is never one of the recent tracks,
provided filtering out the recent tracks leaves a non-empty pool; when the
filtering would empty the pool, the unfiltered pool is used instead. -/
theorem select_avoids_recent (all_files recent : List String) (pick : Nat)
    (mood m : String) (files0 : List String)
    (hres : resolve_candidates all_files mood = .ok (m, files0))
    (hlen : RECENT_TRACKS_SIZE < files0.length) :
    (∀ sel rec2,
        files0.filter (fun f => !(recent.contains f)) ≠ [] →
        select_music_from_mood all_files recent pick mood true = .ok (sel, rec2) →
        recent.contains sel = false) ∧
    (files0.filter (fun f => !(recent.contains f)) = [] →
      ∃ sel rec2,
        select_music_from_mood all_files recent pick mood true = .ok (sel, rec2) ∧
          sel ∈ files0) := by
  have hsel := select_eq_of_resolve all_files recent pick mood m files0 true hres
  constructor
  · intro sel rec2 hne hok
    rw [hsel] at hok
    have hfst := congrArg Prod.fst (Except.ok.inj hok)
    dsimp only at hfst
    rw [apply_recent_filter_avoid_eq recent files0 hlen hne] at hfst
    have hmem : sel ∈ files0.filter (fun f => !(recent.contains f)) := by
      rw [← hfst]
      exact getD_mod_mem _ hne _
    simpa using (List.mem_filter.mp hmem).2
  · intro he
    refine ⟨_, _, hsel, ?_⟩
    rw [apply_recent_filter_full_eq recent files0 hlen he]
    apply getD_mod_mem
    intro hc
    rw [hc] at hlen
    simp [RECENT_TRACKS_SIZE] at hlen

/-- 11 horror-folder tracks for concrete instantiations. -/
def w_files : List String :=
  (List.range 11).map (fun i => "Horror_mp3/t" ++ Nat.repr i ++ ".mp3")

def w_recent : List String := ["Horror_mp3/t0.mp3"]

/-- C4 (witness): concrete instantiation with 11 "horror" tracks, one of
them recently played. -/
theorem select_avoids_recent_witness :
    (∀ sel rec2,
        w_files.filter (fun f => !(w_recent.contains f)) ≠ [] →
        select_music_from_mood w_files w_recent 0 "horror" true = .ok (sel, rec2) →
        w_recent.contains sel = false) ∧
    (w_files.filter (fun f => !(w_recent.contains f)) = [] →
      ∃ sel rec2,
        select_music_from_mood w_files w_recent 0 "horror" true = .ok (sel, rec2) ∧
          sel ∈ w_files) :=
  select_avoids_recent w_files w_recent 0 "horror" "horror" w_files (by rfl) (by decide)

lemma try_similar_none_iff (all_files : List String) (l : List String) :
    try_similar all_files l = none ↔
      ∀ m ∈ l, get_files_from_folders all_files (foldersOf m) = [] := by
  induction l with
  | nil => simp [try_similar]
  | cons a rest ih =>
    rw [try_similar]
    by_cases he : (get_files_from_folders all_files (foldersOf a)).isEmpty = true
    · rw [if_pos he]
      simp [List.forall_mem_cons, ih, List.isEmpty_iff.mp he]
    · rw [if_neg he]
      have hne : get_files_from_folders all_files (foldersOf a) ≠ [] := by
        simpa [List.isEmpty_iff] using he
      simp [List.forall_mem_cons, hne]

lemma try_similar_first (all_files : List String) (l : List String) (m : String)
    (hfind : l.find?
        (fun m2 => !(get_files_from_folders all_files (foldersOf m2)).isEmpty) =
      some m) :
    try_similar all_files l =
      some (m, get_files_from_folders all_files (foldersOf m)) := by
  induction l with
  | nil => cases hfind
  | cons a rest ih =>
    by_cases he : (get_files_from_folders all_files (foldersOf a)).isEmpty = true
    · rw [List.find?_cons_of_neg _ (by simp [he])] at hfind
      rw [try_similar]
      rw [if_pos he]
      exact ih hfind
    · rw [List.find?_cons_of_pos _ (by simp [Bool.not_eq_true] at he ⊢; exact he)] at hfind
      have hm := Option.some.inj hfind
      subst hm
      rw [try_similar]
      rw [if_neg he]

lemma try_similar_some_spec (all_files : List String) (l : List String)
    (m : String) (fs : List String)
    (h : try_similar all_files l = some (m, fs)) :
    m ∈ l ∧ fs = get_files_from_folders all_files (foldersOf m) ∧ fs ≠ [] := by
  induction l with
  | nil => cases h
  | cons a rest ih =>
    rw [try_similar] at h
    by_cases he : (get_files_from_folders all_files (foldersOf a)).isEmpty = true
    · rw [if_pos he] at h
      obtain ⟨h1, h2, h3⟩ := ih h
      exact ⟨List.mem_cons_of_mem _ h1, h2, h3⟩
    · rw [if_neg he] at h
      have hp := Option.some.inj h
      have hm : a = m := congrArg Prod.fst hp
      have hf : get_files_from_folders all_files (foldersOf a) = fs :=
        congrArg Prod.snd hp
      subst hm
      refine ⟨List.mem_cons_self _ _, hf.symm, ?_⟩
      rw [← hf]
      simpa [List.isEmpty_iff] using he

/-- Every successful resolution returns the folder-derived candidate list of
the resolved mood, non-empty, where the resolved mood is the effective mood
itself or a member of its similarity chain. -/
lemma resolve_ok_spec (all_files : List String) (mood m : String)
    (fs : List String)
    (h : resolve_candidates all_files mood = .ok (m, fs)) :
    fs = get_files_from_folders all_files (foldersOf m) ∧ fs ≠ [] ∧
      (m = effective_mood mood ∨ m ∈ chainOf (effective_mood mood)) := by
  rw [resolve_candidates] at h
  by_cases he :
      (get_files_from_folders all_files (foldersOf (effective_mood mood))).isEmpty = true
  · rw [if_pos he] at h
    cases hts : try_similar all_files (chainOf (effective_mood mood)) with
    | none => rw [hts] at h; cases h
    | some p =>
      obtain ⟨m2, fs2⟩ := p
      rw [hts] at h
      have hp := Except.ok.inj h
      have hm : m2 = m := congrArg Prod.fst hp
      have hf : fs2 = fs := congrArg Prod.snd hp
      subst hm
      subst hf
      obtain ⟨h1, h2, h3⟩ := try_similar_some_spec _ _ _ _ hts
      exact ⟨h2, h3, Or.inr h1⟩
  · rw [if_neg he] at h
    have hp := Except.ok.inj h
    have hm : effective_mood mood = m := congrArg Prod.fst hp
    have hf : get_files_from_folders all_files (foldersOf (effective_mood mood)) = fs :=
      congrArg Prod.snd hp
    subst hm
    refine ⟨hf.symm, ?_, Or.inl rfl⟩
    rw [← hf]
    simpa [List.isEmpty_iff] using he

/-- C6: every track returned by `select_music_from_mood` lies in the
folder-derived candidate set of the resolved mood — the effective mood (the
requested one, or "peaceful" when unknown) or its adopted similarity
fallback; never any other folder. -/
theorem select_within_resolved (all_files recent : List String) (pick : Nat)
    (mood : String) (avoid : Bool) (sel : String) (rec2 : List String)
    (h : select_music_from_mood all_files recent pick mood avoid = .ok (sel, rec2)) :
    ∃ m, resolve_candidates all_files mood =
        .ok (m, get_files_from_folders all_files (foldersOf m)) ∧
      sel ∈ get_files_from_folders all_files (foldersOf m) ∧
      (m = effective_mood mood ∨ m ∈ chainOf (effective_mood mood)) := by
  cases hres : resolve_candidates all_files mood with
  | error e => rw [select_music_from_mood, hres] at h; cases h
  | ok p =>
    obtain ⟨m, fs⟩ := p
    obtain ⟨hfs, hne, horigin⟩ := resolve_ok_spec all_files mood m fs hres
    have hsel := select_eq_of_resolve all_files recent pick mood m fs avoid hres
    rw [hsel] at h
    have hm := congrArg Prod.fst (Except.ok.inj h)
    dsimp only at hm
    refine ⟨m, by rw [hfs], ?_, horigin⟩
    rw [← hfs, ← hm]
    exact apply_recent_filter_subset recent fs avoid _
      (getD_mod_mem _ (apply_recent_filter_ne_nil recent fs avoid hne) _)

/-- C6 (witness): selecting for "horror" over the 11-track horror catalog. -/
theorem select_within_resolved_witness :
    ∃ m, resolve_candidates w_files "horror" =
        .ok (m, get_files_from_folders w_files (foldersOf m)) ∧
      "Horror_mp3/t0.mp3" ∈ get_files_from_folders w_files (foldersOf m) ∧
      (m = effective_mood "horror" ∨ m ∈ chainOf (effective_mood "horror")) :=
  select_within_resolved w_files [] 0 "horror" true "Horror_mp3/t0.mp3"
    ["Horror_mp3/t0.mp3"] (by rfl)

/-- C5: when a known mood's own folders yield no candidates, selection
follows the similarity chain in order: it fails with NotFound exactly when
every chain member also yields nothing, and otherwise the resolution adopts
the first chain member with candidates.  In particular for "horror" (chain
[suspense, tension, dark_comedy]): if "suspense" yields at least one
candidate, selection returns a track from "suspense"'s folders and does not
fail. -/
theorem select_similarity_fallback (all_files recent : List String) (pick : Nat)
    (mood : String) (hmem : MUSIC_LIBRARY.any (fun e => e.1 == mood) = true)
    (hempty : get_files_from_folders all_files (foldersOf mood) = []) :
    ((∀ m ∈ chainOf mood, get_files_from_folders all_files (foldersOf m) = []) ↔
      ∃ msg, select_music_from_mood all_files recent pick mood true = .error msg) ∧
    (∀ m, (chainOf mood).find?
        (fun m2 => !(get_files_from_folders all_files (foldersOf m2)).isEmpty) =
          some m →
      resolve_candidates all_files mood =
        .ok (m, get_files_from_folders all_files (foldersOf m))) ∧
    (mood = "horror" →
      get_files_from_folders all_files (foldersOf "suspense") ≠ [] →
      ∃ sel rec2,
        select_music_from_mood all_files recent pick "horror" true = .ok (sel, rec2) ∧
          sel ∈ get_files_from_folders all_files (foldersOf "suspense")) := by
  have heff : effective_mood mood = mood := by
    rw [effective_mood, if_pos hmem]
  have hrw : resolve_candidates all_files mood =
      (match try_similar all_files (chainOf mood) with
       | some (m2, files2) => .ok (m2, files2)
       | none => .error ("No music files found for mood " ++ mood)) := by
    rw [resolve_candidates, heff, hempty]
    rw [if_pos (show ([] : List String).isEmpty = true from rfl)]
  have hconj2 : ∀ m, (chainOf mood).find?
      (fun m2 => !(get_files_from_folders all_files (foldersOf m2)).isEmpty) =
        some m →
      resolve_candidates all_files mood =
        .ok (m, get_files_from_folders all_files (foldersOf m)) := by
    intro m hfind
    rw [hrw, try_similar_first all_files (chainOf mood) m hfind]
  have hconj1 : (∀ m ∈ chainOf mood,
      get_files_from_folders all_files (foldersOf m) = []) ↔
      ∃ msg, select_music_from_mood all_files recent pick mood true = .error msg := by
    cases hts : try_similar all_files (chainOf mood) with
    | none =>
      have hresolve : resolve_candidates all_files mood =
          .error ("No music files found for mood " ++ mood) := by
        rw [hrw, hts]
      constructor
      · intro _
        refine ⟨"No music files found for mood " ++ mood, ?_⟩
        rw [select_music_from_mood, hresolve]
      · intro _
        exact (try_similar_none_iff all_files (chainOf mood)).mp hts
    | some p =>
      obtain ⟨m2, fs2⟩ := p
      have hresolve : resolve_candidates all_files mood = .ok (m2, fs2) := by
        rw [hrw, hts]
      have hsel := select_eq_of_resolve all_files recent pick mood m2 fs2 true hresolve
      constructor
      · intro hall
        have hnone := (try_similar_none_iff all_files (chainOf mood)).mpr hall
        rw [hts] at hnone
        cases hnone
      · rintro ⟨msg, herr⟩
        rw [hsel] at herr
        cases herr
  refine ⟨hconj1, hconj2, ?_⟩
  intro hm hsus
  subst hm
  have hchain : chainOf "horror" = ["suspense", "tension", "dark_comedy"] := by rfl
  have hfind : (chainOf "horror").find?
      (fun m2 => !(get_files_from_folders all_files (foldersOf m2)).isEmpty) =
        some "suspense" := by
    rw [hchain]
    apply List.find?_cons_of_pos
    show (!(get_files_from_folders all_files (foldersOf "suspense")).isEmpty) = true
    cases hE : (get_files_from_folders all_files (foldersOf "suspense")).isEmpty
    · rfl
    · exact absurd (List.isEmpty_iff.mp hE) hsus
  have hresolve := hconj2 "suspense" hfind
  have hsel := select_eq_of_resolve all_files recent pick "horror" "suspense"
    (get_files_from_folders all_files (foldersOf "suspense")) true hresolve
  refine ⟨_, _, hsel, ?_⟩
  exact apply_recent_filter_subset recent _ true _
    (getD_mod_mem _ (apply_recent_filter_ne_nil recent _ true hsus) _)

/-- C5 (witness): a catalog with a single "Underscoring_mp3" track — empty
for "horror", non-empty for "suspense". -/
theorem select_similarity_fallback_witness :
    ((∀ m ∈ chainOf "horror",
        get_files_from_folders ["Underscoring_mp3/a.mp3"] (foldersOf m) = []) ↔
      ∃ msg, select_music_from_mood ["Underscoring_mp3/a.mp3"] [] 0 "horror" true =
        .error msg) ∧
    (∀ m, (chainOf "horror").find?
        (fun m2 =>
          !(get_files_from_folders ["Underscoring_mp3/a.mp3"] (foldersOf m2)).isEmpty) =
          some m →
      resolve_candidates ["Underscoring_mp3/a.mp3"] "horror" =
        .ok (m, get_files_from_folders ["Underscoring_mp3/a.mp3"] (foldersOf m))) ∧
    ("horror" = "horror" →
      get_files_from_folders ["Underscoring_mp3/a.mp3"] (foldersOf "suspense") ≠ [] →
      ∃ sel rec2,
        select_music_from_mood ["Underscoring_mp3/a.mp3"] [] 0 "horror" true =
          .ok (sel, rec2) ∧
          sel ∈ get_files_from_folders ["Underscoring_mp3/a.mp3"] (foldersOf "suspense")) :=
  select_similarity_fallback ["Underscoring_mp3/a.mp3"] [] 0 "horror"
    (by decide) (by rfl)

/-! ## The signed-URL cache (C9) -/

/-- C9: once a URL is minted for a track at time `t1`, a second fetch within
50 minutes returns the identical cached URL with zero signer calls and leaves
the cache unchanged, while a fetch after the 50-minute window treats the
entry as absent — deleting it at read time — and makes exactly one new
signer call. -/
theorem url_cache_expiry (c : UrlCache) (blob : String) (t1 t2 t3 : ℚ)
    (s1 s2 s3 : String → Option String) (url : String)
    (hfresh : ∀ e ∈ c, e.1 ≠ blob)
    (hs1 : s1 blob = some url)
    (hwin : (t2 - t1) / 60 ≤ URL_CACHE_EXPIRY_MINUTES)
    (hexp : (t3 - t1) / 60 > URL_CACHE_EXPIRY_MINUTES) :
    (obtain_streaming_url s1 t1 c blob).url = some url ∧
    (obtain_streaming_url s1 t1 c blob).signerCalls = 1 ∧
    (obtain_streaming_url s2 t2 (obtain_streaming_url s1 t1 c blob).cache blob).url =
      some url ∧
    (obtain_streaming_url s2 t2
        (obtain_streaming_url s1 t1 c blob).cache blob).signerCalls = 0 ∧
    (obtain_streaming_url s2 t2 (obtain_streaming_url s1 t1 c blob).cache blob).cache =
      (obtain_streaming_url s1 t1 c blob).cache ∧
    dictFind (get_cached_signed_url t3
        (obtain_streaming_url s1 t1 c blob).cache blob).2 blob = none ∧
    (obtain_streaming_url s3 t3
        (obtain_streaming_url s1 t1 c blob).cache blob).signerCalls = 1 := by
  have hfind0 : dictFind c blob = none := dictFind_eq_none_of_fresh hfresh
  have hget1 : get_cached_signed_url t1 c blob = (none, c) := by
    rw [get_cached_signed_url, hfind0]
  have ho1 : obtain_streaming_url s1 t1 c blob =
      ⟨some url, cache_signed_url t1 c blob url, 1⟩ := by
    rw [obtain_streaming_url, hget1, hs1]
  have hfindc : dictFind (cache_signed_url t1 c blob url) blob = some ⟨url, t1⟩ := by
    rw [cache_signed_url]
    exact dictFind_insert_fresh c blob ⟨url, t1⟩ hfresh
  have hget2 : get_cached_signed_url t2 (cache_signed_url t1 c blob url) blob =
      (some url, cache_signed_url t1 c blob url) := by
    rw [get_cached_signed_url, hfindc]
    dsimp only
    rw [if_neg (not_lt.mpr hwin)]
  have ho2 : obtain_streaming_url s2 t2 (cache_signed_url t1 c blob url) blob =
      ⟨some url, cache_signed_url t1 c blob url, 0⟩ := by
    rw [obtain_streaming_url, hget2]
  have hget3 : get_cached_signed_url t3 (cache_signed_url t1 c blob url) blob =
      (none, dictErase (cache_signed_url t1 c blob url) blob) := by
    rw [get_cached_signed_url, hfindc]
    dsimp only
    rw [if_pos hexp]
  have ho3 : (obtain_streaming_url s3 t3
      (cache_signed_url t1 c blob url) blob).signerCalls = 1 := by
    rw [obtain_streaming_url, hget3]
    cases hs3 : s3 blob <;> rfl
  rw [ho1]
  dsimp only
  refine ⟨rfl, rfl, ?_, ?_, ?_, ?_, ?_⟩
  · rw [ho2]
  · rw [ho2]
  · rw [ho2]
  · rw [hget3]
    exact dictFind_erase_self _ _
  · exact ho3

/-- The constant external URL signer used in the witness. -/
def url_signer : String → Option String := fun _ => some "URL"

/-- A failing URL signer: the second fetch needs no signer at all. -/
def none_signer : String → Option String := fun _ => none

/-- C9 (witness): concrete fetches at times 0, 3000 (50 minutes, inside the
window) and 3060 (51 minutes, outside). -/
theorem url_cache_expiry_witness :
    (obtain_streaming_url url_signer 0 [] "b").url = some "URL" ∧
    (obtain_streaming_url url_signer 0 [] "b").signerCalls = 1 ∧
    (obtain_streaming_url none_signer 3000
        (obtain_streaming_url url_signer 0 [] "b").cache "b").url = some "URL" ∧
    (obtain_streaming_url none_signer 3000
        (obtain_streaming_url url_signer 0 [] "b").cache "b").signerCalls = 0 ∧
    (obtain_streaming_url none_signer 3000
        (obtain_streaming_url url_signer 0 [] "b").cache "b").cache =
      (obtain_streaming_url url_signer 0 [] "b").cache ∧
    dictFind (get_cached_signed_url 3060
        (obtain_streaming_url url_signer 0 [] "b").cache "b").2 "b" = none ∧
    (obtain_streaming_url none_signer 3060
        (obtain_streaming_url url_signer 0 [] "b").cache "b").signerCalls = 1 :=
  url_cache_expiry [] "b" 0 3000 3060 url_signer none_signer none_signer "URL"
    (by simp) rfl (by norm_num [URL_CACHE_EXPIRY_MINUTES])
    (by norm_num [URL_CACHE_EXPIRY_MINUTES])

end GCSMusic
